import Mathlib

/-!
Shallow embedding of the Amberarctic storefront backend
(src/main.py and src/schemas.py) and proofs of the spec claims.

Modelling conventions:
* Python ints are `Int`; Python floats that the code only ever sets to
  whole-number literals and compares with `>= 0` (prices, order totals)
  are `Rat`.
* The MongoDB product collection is a list of stored documents with a
  `Nat` storage identifier (`_id`); `create_document` appends a document
  with the next identifier, matching insertion-order semantics of the
  real collection.
* FastAPI/pydantic body validation is modelled as a boolean validity
  check applied before the handler body runs; a handler's HTTP error is
  an `Except` error value.
-/

namespace Amberarctic

/-- Body profile accepted by POST /size/recommend (schemas.py, `SizeProfile`).
Bounds on height and weight are enforced by validation, not by the type. -/
structure SizeProfile where
  height_cm : Int
  weight_kg : Int
  build : String
  gender : Option String
deriving DecidableEq

/-- The size heuristic of src/main.py, `recommend_size` (lines 169-189):
score from height and weight, +10 for an "athletic" or "broad" build,
then strict less-than thresholds. -/
def recommend_size (profile : SizeProfile) : String :=
  let h := profile.height_cm
  let w := profile.weight_kg
  let build := profile.build
  let score0 := (h - 160) + (w - 60)
  let score := if build = "athletic" ∨ build = "broad" then score0 + 10 else score0
  if score < 0 then "XS"
  else if score < 10 then "S"
  else if score < 20 then "M"
  else if score < 30 then "L"
  else if score < 40 then "XL"
  else "XXL"

/-- Spec-side score, written from the words of the spec (section 4.2):
`score = (height_cm - 160) + (weight_kg - 60)`, plus 10 when the build is
"athletic" or "broad". Used only to compare against `recommend_size`. -/
def spec_score (p : SizeProfile) : Int :=
  (p.height_cm - 160) + (p.weight_kg - 60) +
    (if p.build = "athletic" ∨ p.build = "broad" then 10 else 0)

/-- Spec-side band mapping, written from the words of the spec:
score < 0 → XS; < 10 → S; < 20 → M; < 30 → L; < 40 → XL; else XXL. -/
def spec_label (score : Int) : String :=
  if score < 0 then "XS"
  else if score < 10 then "S"
  else if score < 20 then "M"
  else if score < 30 then "L"
  else if score < 40 then "XL"
  else "XXL"

/-- Pydantic bounds check for `SizeProfile` (schemas.py lines 42-46):
height_cm in [120, 230], weight_kg in [35, 180]; `build` and `gender`
carry no constraint. -/
def valid_size_profile (p : SizeProfile) : Bool :=
  decide (120 ≤ p.height_cm) && decide (p.height_cm ≤ 230) &&
    decide (35 ≤ p.weight_kg) && decide (p.weight_kg ≤ 180)

/-- POST /size/recommend at the validation boundary: a body failing the
pydantic bounds is rejected with 422 before the handler runs. -/
def size_recommend_endpoint (p : SizeProfile) : Except Nat String :=
  if valid_size_profile p then Except.ok (recommend_size p) else Except.error 422

theorem recommend_size_eq_spec (p : SizeProfile) :
    recommend_size p = spec_label (spec_score p) := by
  have hscore :
      (if p.build = "athletic" ∨ p.build = "broad"
        then (p.height_cm - 160) + (p.weight_kg - 60) + 10
        else (p.height_cm - 160) + (p.weight_kg - 60)) = spec_score p := by
    unfold spec_score
    by_cases hb : p.build = "athletic" ∨ p.build = "broad" <;> simp [hb]
  calc recommend_size p
      = spec_label (if p.build = "athletic" ∨ p.build = "broad"
          then (p.height_cm - 160) + (p.weight_kg - 60) + 10
          else (p.height_cm - 160) + (p.weight_kg - 60)) := rfl
    _ = spec_label (spec_score p) := by rw [hscore]

/-- C1: for every in-bounds profile, `recommend_size` computes the score
`(height_cm - 160) + (weight_kg - 60)`, adds 10 for an "athletic" or
"broad" build, and maps it through strict less-than thresholds; boundary
scores 0, 10, 20, 30, 40 give "S", "M", "L", "XL", "XXL", and the input
height 170, weight 70, build "average" gives "L". -/
theorem C1_recommend_size_correct (p : SizeProfile)
    (h1 : 120 ≤ p.height_cm) (h2 : p.height_cm ≤ 230)
    (h3 : 35 ≤ p.weight_kg) (h4 : p.weight_kg ≤ 180) :
    recommend_size p = spec_label (spec_score p) ∧
    spec_label 0 = "S" ∧ spec_label 10 = "M" ∧ spec_label 20 = "L" ∧
    spec_label 30 = "XL" ∧ spec_label 40 = "XXL" ∧
    recommend_size ⟨170, 70, "average", none⟩ = "L" :=
  ⟨recommend_size_eq_spec p, by decide, by decide, by decide, by decide,
    by decide, by decide⟩

theorem C1_recommend_size_correct_witness :
    (120 ≤ (170 : Int) ∧ (170 : Int) ≤ 230 ∧ 35 ≤ (70 : Int) ∧ (70 : Int) ≤ 180) ∧
    recommend_size ⟨170, 70, "average", none⟩ = "L" :=
  ⟨by decide,
    (C1_recommend_size_correct ⟨170, 70, "average", none⟩
      (by decide) (by decide) (by decide) (by decide)).2.2.2.2.2.2⟩

/-- C2: `recommend_size` depends only on height, weight and build; two
profiles that differ only in gender get the same label. -/
theorem C2_recommend_size_ignores_gender (h w : Int) (b : String)
    (g g2 : Option String) :
    recommend_size ⟨h, w, b, g⟩ = recommend_size ⟨h, w, b, g2⟩ := rfl

/-- C10: the +10 adjustment fires only for the exact lowercase strings
"athletic" and "broad"; any other build, including other casings, gives
the same result as build "average". -/
theorem C10_build_exact_match (p : SizeProfile)
    (h1 : p.build ≠ "athletic") (h2 : p.build ≠ "broad") :
    recommend_size p = recommend_size ⟨p.height_cm, p.weight_kg, "average", p.gender⟩ := by
  unfold recommend_size
  simp [h1, h2]

theorem C10_build_exact_match_witness :
    ("Athletic" ≠ "athletic" ∧ "Athletic" ≠ "broad" ∧
      recommend_size ⟨180, 80, "Athletic", none⟩ =
        recommend_size ⟨180, 80, "average", none⟩) ∧
    ("BROAD" ≠ "athletic" ∧ "BROAD" ≠ "broad" ∧
      recommend_size ⟨150, 50, "BROAD", none⟩ =
        recommend_size ⟨150, 50, "average", none⟩) :=
  ⟨⟨by decide, by decide,
      C10_build_exact_match ⟨180, 80, "Athletic", none⟩ (by decide) (by decide)⟩,
    ⟨by decide, by decide,
      C10_build_exact_match ⟨150, 50, "BROAD", none⟩ (by decide) (by decide)⟩⟩

/-- A product document as validated by schemas.py, `Product` (lines 15-28).
`price` is a non-negative float in the source, modelled as `Rat`. -/
structure ProductData where
  title : String
  slug : String
  gender : String
  activity : List String
  description : Option String
  price : Rat
  images : List String
  colors : List String
  sizes : List String
  temperature_min_c : Int
  battery_life_hours : Int
  warmth_level : Int
  features : List String
deriving DecidableEq

/-- Raw construction input for `Product`: the list fields and `sizes` may
be absent from the request body (pydantic `default_factory`). -/
structure ProductInput where
  title : String
  slug : String
  gender : String
  activity : Option (List String)
  description : Option String
  price : Rat
  images : Option (List String)
  colors : Option (List String)
  sizes : Option (List String)
  temperature_min_c : Int
  battery_life_hours : Int
  warmth_level : Int
  features : Option (List String)
deriving DecidableEq

/-- The default size run of schemas.py line 24. -/
def default_sizes : List String := ["XS", "S", "M", "L", "XL", "XXL"]

/-- Pydantic construction of a `Product`: absent `sizes` defaults to the
six standard sizes, absent list fields default to the empty list. -/
def product_from_input (i : ProductInput) : ProductData where
  title := i.title
  slug := i.slug
  gender := i.gender
  activity := i.activity.getD []
  description := i.description
  price := i.price
  images := i.images.getD []
  colors := i.colors.getD []
  sizes := i.sizes.getD default_sizes
  temperature_min_c := i.temperature_min_c
  battery_life_hours := i.battery_life_hours
  warmth_level := i.warmth_level
  features := i.features.getD []

/-- A document in the "product" collection: the data plus the MongoDB
`_id`, modelled as a `Nat` assigned at insertion. -/
structure StoredProduct where
  id : Nat
  data : ProductData
deriving DecidableEq

/-- A product document after the handler replaced `_id` by its string
form (`it["_id"] = str(it["_id"])`). -/
structure SerializedProduct where
  id : String
  data : ProductData
deriving DecidableEq

/-- The "product" collection, with insertion order preserved and a
counter supplying fresh identifiers. -/
structure ProductStore where
  docs : List StoredProduct
  nextId : Nat
deriving DecidableEq

/-- database.create_document on the "product" collection: insert the
document, assigning it a fresh identifier. -/
def create_document (s : ProductStore) (p : ProductData) : ProductStore where
  docs := s.docs ++ [⟨s.nextId, p⟩]
  nextId := s.nextId + 1

/-- Identifier-to-string conversion applied to every document leaving the
system boundary. -/
def serialize (d : StoredProduct) : SerializedProduct :=
  ⟨toString d.id, d.data⟩

/-- First sample product of the seed routine (src/main.py lines 57-71). -/
def p_arctic : ProductData where
  title := "Arctic Edge Pro"
  slug := "arctic-edge-pro"
  gender := "Unisex"
  activity := ["city", "hiking", "travel"]
  description := some "Premium heated jacket engineered for -30°C with sleek urban design."
  price := 399
  images := ["/images/arctic-edge-pro-1.jpg", "/images/arctic-edge-pro-2.jpg"]
  colors := ["Glacier Blue", "Charcoal Black", "Frost White"]
  sizes := ["XS", "S", "M", "L", "XL", "XXL"]
  temperature_min_c := -30
  battery_life_hours := 10
  warmth_level := 9
  features := ["waterproof", "windproof", "rechargeable", "lightweight"]

/-- Second sample product of the seed routine (src/main.py lines 72-86). -/
def p_polar : ProductData where
  title := "Polar Stealth Lite"
  slug := "polar-stealth-lite"
  gender := "Men"
  activity := ["city", "biking"]
  description := some "Minimal techwear silhouette with targeted heating zones."
  price := 329
  images := ["/images/polar-stealth-lite-1.jpg"]
  colors := ["Charcoal Black", "Icy Silver"]
  sizes := ["S", "M", "L", "XL"]
  temperature_min_c := -20
  battery_life_hours := 8
  warmth_level := 7
  features := ["waterproof", "windproof", "rechargeable"]

/-- Third sample product of the seed routine (src/main.py lines 87-101). -/
def p_glacier : ProductData where
  title := "Glacier Flow Aero"
  slug := "glacier-flow-aero"
  gender := "Women"
  activity := ["travel", "hiking"]
  description := some "Featherlight performance for fast movement in cold climates."
  price := 349
  images := ["/images/glacier-flow-aero-1.jpg"]
  colors := ["Aurora Blue", "Frost White"]
  sizes := ["XS", "S", "M", "L"]
  temperature_min_c := -18
  battery_life_hours := 9
  warmth_level := 8
  features := ["waterproof", "rechargeable", "lightweight"]

/-- The fixed sample catalog inserted by /seed. -/
def sample_products : List ProductData := [p_arctic, p_polar, p_glacier]

/-- Response body of POST /seed. -/
structure SeedResult where
  seeded : Bool
  count : Nat
deriving DecidableEq

/-- POST /seed (src/main.py lines 50-107): if the product collection is
non-empty, report the existing count without writing; otherwise insert
the three sample products and report their number. -/
def seed (s : ProductStore) : SeedResult × ProductStore :=
  if s.docs.isEmpty then
    (⟨true, sample_products.length⟩, sample_products.foldl create_document s)
  else
    (⟨false, s.docs.length⟩, s)

/-- The structural filter built by list_products and evaluated by
`db["product"].find`: exact match on gender, membership for activity,
less-than-or-equal for temperature_min_c. -/
def matches_query (g a : Option String) (t : Option Int) (p : ProductData) : Bool :=
  (match g with
    | none => true
    | some g0 => p.gender == g0) &&
  (match a with
    | none => true
    | some a0 => p.activity.contains a0) &&
  (match t with
    | none => true
    | some t0 => decide (p.temperature_min_c ≤ t0))

/-- GET /products (src/main.py lines 110-125): a query field is added for
gender or activity only when the parameter is truthy (present and not
the empty string), and for temperature whenever min_temp is not None;
results are serialized. -/
def list_products (s : ProductStore) (gender activity : Option String)
    (min_temp : Option Int) : List SerializedProduct :=
  let qg := match gender with
    | some g => if g ≠ "" then some g else none
    | none => none
  let qa := match activity with
    | some a => if a ≠ "" then some a else none
    | none => none
  (s.docs.filter (fun d => matches_query qg qa min_temp d.data)).map serialize

/-- An HTTP error raised by a handler. -/
structure HTTPError where
  status : Nat
  detail : String
deriving DecidableEq

/-- `db["product"].find_one` on a slug filter: the first document in
insertion order whose slug matches, if any. -/
def find_one_by_slug (s : ProductStore) (slug : String) : Option StoredProduct :=
  s.docs.find? (fun d => d.data.slug == slug)

/-- GET /products/slug (src/main.py lines 127-138): 404 when no document
matches, otherwise the matching document with its identifier
stringified. -/
def get_product (s : ProductStore) (slug : String) : Except HTTPError SerializedProduct :=
  match find_one_by_slug s slug with
  | none => Except.error ⟨404, "Product not found"⟩
  | some doc => Except.ok (serialize doc)

/-- An order line item (schemas.py, `OrderItem`, lines 48-52). -/
structure OrderItem where
  product_slug : String
  size : String
  color : String
  quantity : Int
deriving DecidableEq

/-- An order (schemas.py, `Order`, lines 54-62); `total` is a float with
a `ge=0` constraint, modelled as `Rat`. -/
structure Order where
  items : List OrderItem
  email : String
  shipping_name : String
  shipping_address : String
  city : String
  country : String
  postal_code : String
  total : Rat
deriving DecidableEq

/-- Pydantic constraint on an order item: quantity ≥ 1. -/
def valid_order_item (it : OrderItem) : Bool :=
  decide (1 ≤ it.quantity)

/-- Pydantic constraints on an order: every item valid and total ≥ 0. -/
def valid_order (o : Order) : Bool :=
  o.items.all valid_order_item && decide (0 ≤ o.total)

/-- POST /checkout (src/main.py lines 192-198) at the validation
boundary: an invalid body is rejected with 422 before the handler's
`create_document` call, so the order collection is untouched; a valid
body is stored and acknowledged. -/
def checkout (orders : List Order) (o : Order) : Except Nat Bool × List Order :=
  if valid_order o then (Except.ok true, orders ++ [o])
  else (Except.error 422, orders)

/-- C3: /seed is idempotent. A non-empty product collection means no
write and a (false, existing count) report; an empty one gets exactly
the three fixed sample products and a (true, 3) report; a second seed
never changes the store, so the document count after two seeds is 3 from
an empty store and the pre-existing count otherwise. -/
theorem C3_seed_idempotent (s : ProductStore) :
    (s.docs ≠ [] → seed s = (⟨false, s.docs.length⟩, s)) ∧
    (s.docs = [] →
      (seed s).1 = ⟨true, 3⟩ ∧
      (seed s).2.docs.map StoredProduct.data = sample_products) ∧
    (seed (seed s).2).2 = (seed s).2 ∧
    (seed (seed s).2).2.docs.length = if s.docs = [] then 3 else s.docs.length := by
  obtain ⟨docs, nid⟩ := s
  cases docs with
  | nil =>
    exact ⟨fun h => absurd rfl h, fun _ => ⟨rfl, rfl⟩, rfl, rfl⟩
  | cons d ds =>
    exact ⟨fun _ => rfl, fun h => by simp at h, rfl, rfl⟩

theorem C3_seed_idempotent_witness :
    ((seed ⟨[], 0⟩).1 = ⟨true, 3⟩ ∧
      (seed ⟨[], 0⟩).2.docs.map StoredProduct.data = sample_products) ∧
    ((⟨[⟨0, p_arctic⟩], 1⟩ : ProductStore).docs ≠ [] ∧
      seed ⟨[⟨0, p_arctic⟩], 1⟩ = (⟨false, 1⟩, ⟨[⟨0, p_arctic⟩], 1⟩)) :=
  ⟨(C3_seed_idempotent ⟨[], 0⟩).2.1 rfl,
    ⟨by simp, (C3_seed_idempotent ⟨[⟨0, p_arctic⟩], 1⟩).1 (by simp)⟩⟩

/-- C4: every product returned by GET /products with a min_temp
parameter has temperature_min_c ≤ min_temp, whatever the other query
parameters are. -/
theorem C4_min_temp_filter (s : ProductStore) (g a : Option String) (m : Int)
    (p : SerializedProduct) (hp : p ∈ list_products s g a (some m)) :
    p.data.temperature_min_c ≤ m := by
  simp only [list_products, List.mem_map] at hp
  obtain ⟨d, hd, hpd⟩ := hp
  rw [List.mem_filter] at hd
  have hq := hd.2
  simp only [matches_query, Bool.and_eq_true, decide_eq_true_eq] at hq
  subst hpd
  exact hq.2

theorem C4_min_temp_filter_witness :
    serialize ⟨0, p_arctic⟩ ∈
      list_products ⟨[⟨0, p_arctic⟩], 1⟩ none none (some (-20)) ∧
    (serialize ⟨0, p_arctic⟩).data.temperature_min_c ≤ -20 :=
  ⟨by decide,
    C4_min_temp_filter ⟨[⟨0, p_arctic⟩], 1⟩ none none (-20)
      (serialize ⟨0, p_arctic⟩) (by decide)⟩

/-- C5: GET /products/slug returns a 404 error value (never an uncaught
exception: `get_product` is a total function into `Except`) when no
stored product has the slug, and returns the matching document with its
identifier stringified when `find_one` yields one. -/
theorem C5_get_product_404 (s : ProductStore) (slug : String) :
    ((∀ d ∈ s.docs, d.data.slug ≠ slug) →
      get_product s slug = Except.error ⟨404, "Product not found"⟩) ∧
    (∀ d, find_one_by_slug s slug = some d →
      get_product s slug = Except.ok (serialize d)) := by
  constructor
  · intro hnone
    unfold get_product
    have hfind : find_one_by_slug s slug = none := by
      unfold find_one_by_slug
      rw [List.find?_eq_none]
      intro d hd
      simp only [beq_iff_eq]
      exact hnone d hd
    rw [hfind]
  · intro d hd
    unfold get_product
    rw [hd]

theorem C5_get_product_404_witness :
    ((∀ d ∈ (⟨[⟨0, p_arctic⟩], 1⟩ : ProductStore).docs,
        d.data.slug ≠ "unknown-slug") ∧
      get_product ⟨[⟨0, p_arctic⟩], 1⟩ "unknown-slug" =
        Except.error ⟨404, "Product not found"⟩) ∧
    (find_one_by_slug ⟨[⟨0, p_arctic⟩], 1⟩ "arctic-edge-pro" = some ⟨0, p_arctic⟩ ∧
      get_product ⟨[⟨0, p_arctic⟩], 1⟩ "arctic-edge-pro" =
        Except.ok (serialize ⟨0, p_arctic⟩)) :=
  ⟨⟨by decide, (C5_get_product_404 ⟨[⟨0, p_arctic⟩], 1⟩ "unknown-slug").1 (by decide)⟩,
    ⟨by decide,
      (C5_get_product_404 ⟨[⟨0, p_arctic⟩], 1⟩ "arctic-edge-pro").2
        ⟨0, p_arctic⟩ (by decide)⟩⟩

/-- C6: POST /checkout with a negative total is rejected with 422 by
validation and the order collection is left unchanged. -/
theorem C6_checkout_rejects_negative_total (orders : List Order) (o : Order)
    (h : o.total < 0) :
    checkout orders o = (Except.error 422, orders) := by
  have hv : valid_order o = false := by
    unfold valid_order
    simp [not_le.mpr h]
  simp [checkout, hv]

theorem C6_checkout_rejects_negative_total_witness :
    (⟨[], "a@example.com", "A", "B", "C", "D", "E", -5⟩ : Order).total < 0 ∧
    checkout [] ⟨[], "a@example.com", "A", "B", "C", "D", "E", -5⟩ =
      (Except.error 422, []) :=
  ⟨by norm_num,
    C6_checkout_rejects_negative_total []
      ⟨[], "a@example.com", "A", "B", "C", "D", "E", -5⟩ (by norm_num)⟩

/-- C7: POST /size/recommend answers 422 exactly when height_cm is
outside [120, 230] or weight_kg is outside [35, 180]; whether the body
is rejected never depends on the build string. -/
theorem C7_size_validation (p : SizeProfile) :
    (size_recommend_endpoint p = Except.error 422 ↔
      ¬(120 ≤ p.height_cm ∧ p.height_cm ≤ 230 ∧
        35 ≤ p.weight_kg ∧ p.weight_kg ≤ 180)) ∧
    (∀ b : String,
      size_recommend_endpoint ⟨p.height_cm, p.weight_kg, b, p.gender⟩ =
          Except.error 422 ↔
        size_recommend_endpoint p = Except.error 422) := by
  have key : ∀ q : SizeProfile,
      size_recommend_endpoint q = Except.error 422 ↔
        ¬(120 ≤ q.height_cm ∧ q.height_cm ≤ 230 ∧
          35 ≤ q.weight_kg ∧ q.weight_kg ≤ 180) := by
    intro q
    unfold size_recommend_endpoint valid_size_profile
    by_cases hv : 120 ≤ q.height_cm ∧ q.height_cm ≤ 230 ∧
        35 ≤ q.weight_kg ∧ q.weight_kg ≤ 180
    · obtain ⟨a1, a2, a3, a4⟩ := hv
      simp [a1, a2, a3, a4]
    · have hfalse : (decide (120 ≤ q.height_cm) && decide (q.height_cm ≤ 230) &&
          decide (35 ≤ q.weight_kg) && decide (q.weight_kg ≤ 180)) = false := by
        by_contra hc
        rw [Bool.not_eq_false] at hc
        simp only [Bool.and_eq_true, decide_eq_true_eq] at hc
        exact hv ⟨hc.1.1.1, hc.1.1.2, hc.1.2, hc.2⟩
      simp [hfalse, hv]
  exact ⟨key p, fun b => by
    rw [key ⟨p.height_cm, p.weight_kg, b, p.gender⟩, key p]⟩

/-- Concrete raw product body with every defaulted field absent, used to
instantiate the defaults claim. -/
def bare_input : ProductInput :=
  ⟨"T", "t", "Unisex", none, none, 0, none, none, none, -10, 5, 5, none⟩

/-- C8: constructing a Product with `sizes` omitted yields the six
standard sizes, and omitted activity, images, colors and features yield
empty lists. -/
theorem C8_product_defaults (i : ProductInput)
    (hs : i.sizes = none) (ha : i.activity = none) (him : i.images = none)
    (hc : i.colors = none) (hf : i.features = none) :
    (product_from_input i).sizes = ["XS", "S", "M", "L", "XL", "XXL"] ∧
    (product_from_input i).activity = [] ∧
    (product_from_input i).images = [] ∧
    (product_from_input i).colors = [] ∧
    (product_from_input i).features = [] := by
  simp [product_from_input, hs, ha, him, hc, hf, default_sizes]

theorem C8_product_defaults_witness :
    (bare_input.sizes = none ∧ bare_input.activity = none ∧
      bare_input.images = none ∧ bare_input.colors = none ∧
      bare_input.features = none) ∧
    ((product_from_input bare_input).sizes = ["XS", "S", "M", "L", "XL", "XXL"] ∧
      (product_from_input bare_input).activity = [] ∧
      (product_from_input bare_input).images = [] ∧
      (product_from_input bare_input).colors = [] ∧
      (product_from_input bare_input).features = []) :=
  ⟨⟨rfl, rfl, rfl, rfl, rfl⟩,
    C8_product_defaults bare_input rfl rfl rfl rfl rfl⟩

/-- A product whose minimum temperature is positive, to separate the
min_temp=0 filter from its absence. -/
def p_warm : ProductData :=
  { p_arctic with temperature_min_c := 5 }

/-- C9: in GET /products an empty-string gender or activity parameter is
treated like an absent one (the handler tests truthiness), while
min_temp = 0 is applied as a real filter, unlike an absent min_temp. -/
theorem C9_empty_string_params (s : ProductStore) :
    (∀ a m, list_products s (some "") a m = list_products s none a m) ∧
    (∀ g m, list_products s g (some "") m = list_products s g none m) ∧
    (list_products ⟨[⟨0, p_warm⟩], 1⟩ none none (some 0) = [] ∧
      list_products ⟨[⟨0, p_warm⟩], 1⟩ none none none = [serialize ⟨0, p_warm⟩]) :=
  ⟨fun a m => rfl, fun g m => rfl, by decide, by decide⟩

end Amberarctic
